import Mathlib

/-!
# bank_api, package gapi: user conversion and server construction

A shallow embedding of the two source files of package gapi,

* coverter.go: convertUser, the projection of a stored user onto the wire record;
* server.go: the Server record and its constructor NewServer,

together with the parts of the Go standard library and of the protobuf runtime
they call (time.Time, timestamppb.Timestamp, fmt.Errorf, errors.Unwrap).

Conventions of the embedding:

* a Go machine integer is a mathematical integer inside the range of its width;
  a conversion or an arithmetic step that can overflow wraps explicitly;
* a Go pointer or interface value that may be nil is an Option;
* a Go function returning (value, error) returns a pair.
-/

namespace golang

/-- The values of a Go int64. -/
abbrev int64 : Type :=
  {i : Int // -9223372036854775808 ≤ i ∧ i < 9223372036854775808}

/-- The values of a Go int32. -/
abbrev int32 : Type := {i : Int // -2147483648 ≤ i ∧ i < 2147483648}

/-- A Go byte. -/
abbrev byte : Type := Fin 256

/-- Two's complement wrap-around of an integer into 64 bits. -/
def wrap64 (x : Int) : Int :=
  (x + 9223372036854775808) % 18446744073709551616 - 9223372036854775808

/-- Two's complement wrap-around of an integer into 32 bits. -/
def wrap32 (x : Int) : Int := (x + 2147483648) % 4294967296 - 2147483648

/-- The conversion int64(x), and the result of 64-bit arithmetic. -/
def int64.ofInt (x : Int) : int64 := ⟨wrap64 x, by unfold wrap64; omega⟩

/-- The conversion int32(x). -/
def int32.ofInt (x : Int) : int32 := ⟨wrap32 x, by unfold wrap32; omega⟩

/-- A Go error value. errorString is a plain error carrying its message (errors.New);
wrapError is the value fmt.Errorf builds for a format with one %w verb: the formatted
message and the wrapped error. -/
inductive error where
  | errorString (s : String)
  | wrapError (msg : String) (err : error)
  deriving DecidableEq, Repr

/-- The method Error() of an error value. -/
def error.Error : error → String
  | .errorString s => s
  | .wrapError msg _ => msg

end golang

namespace errors

/-- The function errors.Unwrap: the wrapped error of a wrapError, nil for an error without
an Unwrap method. -/
def Unwrap : golang.error → Option golang.error
  | .errorString _ => none
  | .wrapError _ err => some err

end errors

namespace fmt

/-- The call fmt.Errorf(text + "%w", err) for a text without verbs: the message is the text
followed by err.Error(), and the result wraps err. -/
def Errorf (text : String) (err : golang.error) : golang.error :=
  .wrapError (text ++ err.Error) err

end fmt

namespace time

/-- The location attached to a time.Time; it does not take part in the instant. -/
inductive Location where
  | UTC
  | Local
  | Fixed (name : String) (offset : Int)
  deriving DecidableEq, Repr

/-- A Go time.Time, by what its accessors observe: the seconds since the Unix epoch
(Unix(), an int64, negative before 1970), the nanoseconds within that second
(Nanosecond(), always in [0, 999999999]) and the location. The monotonic clock reading a
Time may carry is read by none of Unix(), Nanosecond() and Equal against a Time without
one, and is left out. -/
structure Time where
  unixSec : golang.int64
  nsec : Fin 1000000000
  loc : Location
  deriving DecidableEq

/-- The method t.Unix(). -/
def Time.Unix (t : Time) : golang.int64 := t.unixSec

/-- The method t.Nanosecond(), a Go int. -/
def Time.Nanosecond (t : Time) : Int := (t.nsec.val : Int)

/-- The method t.UTC(): the same instant with the location set to UTC. -/
def Time.UTC (t : Time) : Time := { t with loc := Location.UTC }

/-- The method t.Equal(u): the two values are the same instant, whatever their locations. -/
def Time.Equal (t u : Time) : Bool :=
  decide (t.unixSec = u.unixSec) && decide (t.nsec = u.nsec)

/-- The zero value time.Time{}: January 1, year 1, 00:00:00 UTC, which is 62135596800
seconds before the Unix epoch. -/
def Time.zero : Time := ⟨⟨-62135596800, by decide⟩, 0, Location.UTC⟩

/-- The method t.Truncate(time.Millisecond): a millisecond divides a second, so the result
keeps the second and rounds the nanoseconds down to a multiple of 1000000. -/
def Time.TruncateMillisecond (t : Time) : Time :=
  { t with nsec := ⟨t.nsec.val - t.nsec.val % 1000000, by have := t.nsec.isLt; omega⟩ }

/-- The internal constructor unixTime(sec, nsec). -/
def unixTime (sec : golang.int64) (nsec : Fin 1000000000) : Time :=
  ⟨sec, nsec, Location.Local⟩

/-- The function time.Unix(sec, nsec): nsec outside [0, 999999999] is carried into sec
(Go's / truncates toward zero, the 64-bit additions wrap), then the local Time of that
instant is built. -/
def Unix (sec nsec : golang.int64) : Time :=
  if h : nsec.val < 0 ∨ 1000000000 ≤ nsec.val then
    let n : Int := Int.tdiv nsec.val 1000000000
    let sec1 : golang.int64 := golang.int64.ofInt (sec.val + n)
    let nsec1 : Int := nsec.val - n * 1000000000
    have hn : -1000000000 < nsec1 ∧ nsec1 < 1000000000 := by
      show -1000000000 < nsec.val - Int.tdiv nsec.val 1000000000 * 1000000000 ∧
        nsec.val - Int.tdiv nsec.val 1000000000 * 1000000000 < 1000000000
      generalize nsec.val = a
      rcases Int.le_total 0 a with h0 | h0
      · rw [Int.tdiv_eq_ediv h0 (by omega)]; omega
      · obtain ⟨b, rfl⟩ : ∃ b, a = -b := ⟨-a, by omega⟩
        rw [Int.neg_tdiv, Int.tdiv_eq_ediv (by omega) (by omega)]; omega
    if h1 : nsec1 < 0 then
      unixTime (golang.int64.ofInt (sec1.val - 1))
        ⟨(nsec1 + 1000000000).toNat, by omega⟩
    else
      unixTime sec1 ⟨nsec1.toNat, by omega⟩
  else
    unixTime sec ⟨nsec.val.toNat, by omega⟩

end time

namespace timestamppb

/-- The protobuf well-known type Timestamp: Seconds is an int64, Nanos an int32. -/
structure Timestamp where
  Seconds : golang.int64
  Nanos : golang.int32
  deriving DecidableEq

/-- The function timestamppb.New(t):
Timestamp{Seconds: int64(t.Unix()), Nanos: int32(t.Nanosecond())}. -/
def New (t : time.Time) : Timestamp :=
  { Seconds := golang.int64.ofInt t.Unix.val
    Nanos := golang.int32.ofInt t.Nanosecond }

/-- The method x.GetSeconds(), 0 on a nil receiver. -/
def GetSeconds : Option Timestamp → golang.int64
  | some x => x.Seconds
  | none => ⟨0, by decide⟩

/-- The method x.GetNanos(), 0 on a nil receiver. -/
def GetNanos : Option Timestamp → golang.int32
  | some x => x.Nanos
  | none => ⟨0, by decide⟩

/-- The method x.AsTime(): time.Unix(int64(x.GetSeconds()), int64(x.GetNanos())).UTC(). -/
def AsTime (x : Option Timestamp) : time.Time :=
  (time.Unix (golang.int64.ofInt (GetSeconds x).val)
    (golang.int64.ofInt (GetNanos x).val)).UTC

end timestamppb

namespace db

/-- Modelled from the spec: the declaration of db.User (package db/sqlc) is not among the
sources. The spec's User has a username, a full name, an email, the time of the last
password change, the creation time and, implicitly, a credential hash; the field internal
stands for whatever other internal-only fields the record carries. The five converted
fields are named as coverter.go reads them. -/
structure User (ι : Type) where
  Username : String
  HashedPassword : String
  FullName : String
  Email : String
  PasswordChagedAt : time.Time
  CreatedAt : time.Time
  internal : ι

end db

namespace pb

/-- Modelled from the spec: the declaration of pb.User (package pb) is not among the
sources. The wire record has five fields, named as coverter.go sets them; the two
timestamps are pointers to a Timestamp. -/
structure User where
  Username : String
  FullName : String
  Email : String
  PasswordChangedAt : Option timestamppb.Timestamp
  CreatedAt : Option timestamppb.Timestamp
  deriving DecidableEq

/-- Modelled from the spec: the declaration of pb.UnimplementedBasicBankServer is not among
the sources; the default handler set embedded in Server carries no data. -/
structure UnimplementedBasicBankServer where
  deriving DecidableEq

end pb

namespace gapi

/-- The function convertUser of coverter.go; the result is the non-nil pointer to the new
record. -/
def convertUser {ι : Type} (user : db.User ι) : Option pb.User :=
  some
    { Username := user.Username
      FullName := user.FullName
      Email := user.Email
      PasswordChangedAt := some (timestamppb.New user.PasswordChagedAt)
      CreatedAt := some (timestamppb.New user.CreatedAt) }

end gapi

namespace util

/-- Modelled from the spec: the declaration of util.Config is not among the sources. Its one
field read by NewServer is the symmetric key, a Go string taken as its bytes; the field other
stands for the rest of the configuration. -/
structure Config (κ : Type) where
  TokenSymmetricKey : List golang.byte
  other : κ

end util

namespace token

/-- Modelled from the spec: the key length the authentication component requires,
32 bytes. -/
def KeySize : Nat := 32

/-- Modelled from the spec: the authentication component built by the missing package
token, a token maker derived from a symmetric key. -/
structure PasetoMaker where
  symmetricKey : List golang.byte
  deriving DecidableEq

/-- Modelled from the spec: the error kind InvalidKey of the missing package token. -/
def InvalidKey : golang.error := .errorString "InvalidKey"

/-- Modelled from the spec: token.NewPasetoMaker (package token) is not among the sources.
The factory creates the maker from a symmetric key and fails with InvalidKey, returning no
maker, when the key does not have the required length. -/
def NewPasetoMaker (symmetricKey : List golang.byte) :
    Option PasetoMaker × Option golang.error :=
  if symmetricKey.length ≠ KeySize then (none, some InvalidKey)
  else (some { symmetricKey := symmetricKey }, none)

/-- Modelled from the spec: what the spec promises of the authentication component of the
missing package token, whose issuing and verifying code it does not describe: a maker
created from a key of the required length can both issue and verify a token for an
arbitrary identity, that is, it verifies every token it issues. The input x of issue stands
for the identity and whatever else issuing reads. -/
def IssuesAndVerifies {ι τ : Type} (issue : Option PasetoMaker → ι → τ)
    (verify : Option PasetoMaker → τ → Bool) : Prop :=
  ∀ (key : List golang.byte) (x : ι), key.length = KeySize →
    verify (some { symmetricKey := key }) (issue (some { symmetricKey := key }) x) = true

end token

namespace gapi

/-- The struct Server of server.go, over the types of the configuration's remaining fields
(κ), of the values of the interfaces db.Store (σ), token.Maker (μ) and
worker.TaskDistributor (δ). -/
structure Server (κ σ μ δ : Type) where
  UnimplementedBasicBankServer : pb.UnimplementedBasicBankServer
  config : util.Config κ
  store : σ
  tokenMaker : μ
  taskDistributor : δ

/-- The function NewServer of server.go. The factory token.NewPasetoMaker it calls is the
first argument; the result is the pair (server pointer, error). -/
def NewServer {κ σ μ δ : Type}
    (NewPasetoMaker : List golang.byte → μ × Option golang.error)
    (config : util.Config κ) (store : σ) (taskDistributor : δ) :
    Option (Server κ σ μ δ) × Option golang.error :=
  match NewPasetoMaker config.TokenSymmetricKey with
  | (_, some err) => (none, some (fmt.Errorf "cannot create token maker: " err))
  | (tokenMaker, none) =>
    (some
      { UnimplementedBasicBankServer := {}
        config := config
        store := store
        tokenMaker := tokenMaker
        taskDistributor := taskDistributor }, none)

/-- The user of the spec's conversion scenario: alice, with T1 = 1672628645.123456789 s
(2023-01-02 03:04:05.123456789 UTC) and T2 = 1600000000.000000001 s. -/
def alice : db.User Unit :=
  { Username := "alice"
    HashedPassword := "$2a$10$N9qo8uLOickgx2ZMRZoMye"
    FullName := "Alice A."
    Email := "alice@x.com"
    PasswordChagedAt := ⟨⟨1672628645, by decide⟩, 123456789, time.Location.Local⟩
    CreatedAt := ⟨⟨1600000000, by decide⟩, 1, time.Location.UTC⟩
    internal := () }

/-- The same public record as alice with another credential hash and another internal
field. -/
def aliceRehashed : db.User Bool :=
  { Username := "alice"
    HashedPassword := "$2a$10$7EqJtq98hPqEX7fNZaFWoO"
    FullName := "Alice A."
    Email := "alice@x.com"
    PasswordChagedAt := ⟨⟨1672628645, by decide⟩, 123456789, time.Location.Local⟩
    CreatedAt := ⟨⟨1600000000, by decide⟩, 1, time.Location.UTC⟩
    internal := true }

/-- A user created before the Unix epoch, 1969-12-31 23:59:58.999999999 in a zone one hour
east of UTC, whose password changed at 0.000999999 s. -/
def oldUser : db.User Unit :=
  { Username := "old"
    HashedPassword := "h"
    FullName := "Old O."
    Email := "old@x.com"
    PasswordChagedAt := ⟨⟨0, by decide⟩, 999999, time.Location.UTC⟩
    CreatedAt := ⟨⟨-2, by decide⟩, 999999999, time.Location.Fixed "CET" 3600⟩
    internal := () }

/-- The zero value db.User{}: empty strings and zero timestamps. -/
def zeroUser : db.User Unit :=
  { Username := ""
    HashedPassword := ""
    FullName := ""
    Email := ""
    PasswordChagedAt := time.Time.zero
    CreatedAt := time.Time.zero
    internal := () }

/-- A key of 8 bytes. -/
def shortKey : List golang.byte := [0x6b, 0x33, 0x79, 0xff, 0x00, 0x38, 0x62, 0x74]

/-- A key of 32 bytes. -/
def goodKey : List golang.byte := List.replicate 4 0x2a ++ shortKey ++ List.replicate 20 0x07

/-- Another key of 32 bytes. -/
def otherKey : List golang.byte := List.replicate 32 0x11

/-- An example of issuing: the token is the identity tagged with the key of its issuer. -/
def tagIssue (m : Option token.PasetoMaker) (identity : String) :
    Option (List golang.byte) × String :=
  (m.map fun k => k.symmetricKey, identity)

/-- An example of verifying: a token is accepted when its tag is the key of the verifier. -/
def tagVerify (m : Option token.PasetoMaker) (t : Option (List golang.byte) × String) : Bool :=
  decide ((m.map fun k => k.symmetricKey) = t.1)

end gapi

/-! ## Facts about the library model -/

namespace golang

theorem wrap64_of_int64 (a : int64) : wrap64 a.val = a.val := by
  have h := a.property
  unfold wrap64
  omega

theorem int64_ofInt_val (a : int64) : int64.ofInt a.val = a :=
  Subtype.ext (wrap64_of_int64 a)

theorem wrap32_of_nsec (n : Fin 1000000000) : wrap32 (n.val : Int) = (n.val : Int) := by
  have h := n.isLt
  unfold wrap32
  omega

end golang

namespace timestamppb

/-- The seconds of New(t) are t.Unix() and its nanos are t.Nanosecond(): neither conversion
overflows. -/
theorem New_val (t : time.Time) :
    (New t).Seconds = t.unixSec ∧ (New t).Nanos.val = (t.nsec.val : Int) := by
  refine ⟨golang.int64_ofInt_val t.unixSec, ?_⟩
  exact golang.wrap32_of_nsec t.nsec

/-- Converting New(t) back gives the instant of t, in UTC. -/
theorem AsTime_New (t : time.Time) : AsTime (some (New t)) = t.UTC := by
  obtain ⟨hs, hn⟩ := New_val t
  have hlt := t.nsec.isLt
  have h64 : golang.wrap64 (t.nsec.val : Int) = (t.nsec.val : Int) := by
    unfold golang.wrap64
    omega
  have hcond : ¬ ((golang.int64.ofInt (GetNanos (some (New t))).val).val < 0 ∨
      1000000000 ≤ (golang.int64.ofInt (GetNanos (some (New t))).val).val) := by
    simp only [GetNanos, golang.int64.ofInt, hn, h64]
    omega
  unfold AsTime time.Unix
  rw [dif_neg hcond]
  simp only [GetSeconds, GetNanos, golang.int64_ofInt_val, hs, time.unixTime, time.Time.UTC,
    golang.int64.ofInt, hn, h64, Int.toNat_ofNat]
  rw [time.Time.mk.injEq]
  exact ⟨Subtype.ext (golang.wrap64_of_int64 t.unixSec), Fin.ext rfl, rfl⟩

end timestamppb

/-! ## convertUser -/

namespace gapi

/-- C1: convertUser(u) returns a record whose five fields are the corresponding fields of u:
the three strings are copied, PasswordChangedAt is the wire timestamp of u.PasswordChagedAt
(its seconds and nanoseconds) and CreatedAt is the wire timestamp of u.CreatedAt. -/
theorem convertUser_fields {ι : Type} (u : db.User ι) :
    ∃ p pc cr, convertUser u = some p ∧
      p.Username = u.Username ∧ p.FullName = u.FullName ∧ p.Email = u.Email ∧
      p.PasswordChangedAt = some pc ∧ pc = timestamppb.New u.PasswordChagedAt ∧
      pc.Seconds = u.PasswordChagedAt.Unix ∧
      pc.Nanos.val = u.PasswordChagedAt.Nanosecond ∧
      p.CreatedAt = some cr ∧ cr = timestamppb.New u.CreatedAt ∧
      cr.Seconds = u.CreatedAt.Unix ∧
      cr.Nanos.val = u.CreatedAt.Nanosecond :=
  ⟨_, _, _, rfl, rfl, rfl, rfl, rfl, rfl,
    (timestamppb.New_val u.PasswordChagedAt).1, (timestamppb.New_val u.PasswordChagedAt).2,
    rfl, rfl, (timestamppb.New_val u.CreatedAt).1, (timestamppb.New_val u.CreatedAt).2⟩

/-- C1 at the spec's scenario: alice is converted to the record with exactly her username,
full name, email, T1 as PasswordChangedAt and T2 as CreatedAt. -/
theorem convertUser_fields_alice :
    convertUser alice =
      some
        { Username := "alice"
          FullName := "Alice A."
          Email := "alice@x.com"
          PasswordChangedAt := some ⟨⟨1672628645, by decide⟩, ⟨123456789, by decide⟩⟩
          CreatedAt := some ⟨⟨1600000000, by decide⟩, ⟨1, by decide⟩⟩ } := by
  obtain ⟨p, pc, cr, h, h1, h2, h3, h4, h5, -, -, h6, h7, -, -⟩ := convertUser_fields alice
  subst h5 h7
  rw [h]
  rcases p with ⟨a, b, c, d, e⟩
  simp only at h1 h2 h3 h4 h6
  subst h1 h2 h3 h4 h6
  decide

/-- C2: two internal users that agree on Username, FullName, Email, PasswordChagedAt and
CreatedAt are converted to equal records, however their credential hashes and their other
internal fields (even the type of those) differ. -/
theorem convertUser_hides_internal {ι₁ ι₂ : Type} (u1 : db.User ι₁) (u2 : db.User ι₂)
    (hUsername : u1.Username = u2.Username) (hFullName : u1.FullName = u2.FullName)
    (hEmail : u1.Email = u2.Email)
    (hPasswordChagedAt : u1.PasswordChagedAt = u2.PasswordChagedAt)
    (hCreatedAt : u1.CreatedAt = u2.CreatedAt) :
    convertUser u1 = convertUser u2 := by
  unfold convertUser
  rw [hUsername, hFullName, hEmail, hPasswordChagedAt, hCreatedAt]

/-- C2 at alice and the same user with another credential hash and another internal field:
the hypotheses hold, the hashes differ and the two conversions are equal. -/
theorem convertUser_hides_internal_witness :
    alice.HashedPassword ≠ aliceRehashed.HashedPassword ∧
      convertUser alice = convertUser aliceRehashed :=
  ⟨by decide, convertUser_hides_internal alice aliceRehashed rfl rfl rfl rfl rfl⟩

/-- C7: for every internal user, converting each wire timestamp of convertUser(u) back to
a time gives the instant of the source field: the same value in UTC, Equal to the source,
and so also Equal after truncating both to milliseconds. -/
theorem convertUser_timestamps_roundtrip {ι : Type} (u : db.User ι) :
    ∃ p, convertUser u = some p ∧
      timestamppb.AsTime p.PasswordChangedAt = u.PasswordChagedAt.UTC ∧
      (timestamppb.AsTime p.PasswordChangedAt).Equal u.PasswordChagedAt = true ∧
      (timestamppb.AsTime p.PasswordChangedAt).TruncateMillisecond.Equal
        u.PasswordChagedAt.TruncateMillisecond = true ∧
      timestamppb.AsTime p.CreatedAt = u.CreatedAt.UTC ∧
      (timestamppb.AsTime p.CreatedAt).Equal u.CreatedAt = true ∧
      (timestamppb.AsTime p.CreatedAt).TruncateMillisecond.Equal
        u.CreatedAt.TruncateMillisecond = true := by
  refine ⟨_, rfl, ?_⟩
  simp only [timestamppb.AsTime_New]
  simp [time.Time.Equal, time.Time.UTC, time.Time.TruncateMillisecond]

/-- C7 at a user created before the Unix epoch with a non-zero sub-second part: the
timestamps read back are 0.000999999 s and -2 s + 999999999 ns, in UTC, and truncate to
0.000 s and -2 s + 999 ms like their sources. -/
theorem convertUser_timestamps_roundtrip_witness :
    ∃ p, convertUser oldUser = some p ∧
      timestamppb.AsTime p.PasswordChangedAt = ⟨⟨0, by decide⟩, 999999, time.Location.UTC⟩ ∧
      timestamppb.AsTime p.CreatedAt = ⟨⟨-2, by decide⟩, 999999999, time.Location.UTC⟩ ∧
      (timestamppb.AsTime p.PasswordChangedAt).TruncateMillisecond =
        ⟨⟨0, by decide⟩, 0, time.Location.UTC⟩ ∧
      (timestamppb.AsTime p.CreatedAt).TruncateMillisecond =
        ⟨⟨-2, by decide⟩, 999000000, time.Location.UTC⟩ ∧
      (timestamppb.AsTime p.CreatedAt).TruncateMillisecond.Equal
        oldUser.CreatedAt.TruncateMillisecond = true := by
  obtain ⟨p, h, h1, -, -, h2, -, h3⟩ := convertUser_timestamps_roundtrip oldUser
  refine ⟨p, h, ?_, ?_, ?_, ?_, h3⟩
  · rw [h1]; decide
  · rw [h2]; decide
  · rw [h1]; decide
  · rw [h2]; decide

/-- C9: two calls of convertUser on the same internal user return two records that are
equal, field by field, both timestamps included. -/
theorem convertUser_twice {ι : Type} (u : db.User ι) :
    ∃ p q, convertUser u = some p ∧ convertUser u = some q ∧ p = q ∧
      p.Username = q.Username ∧ p.FullName = q.FullName ∧ p.Email = q.Email ∧
      p.PasswordChangedAt = q.PasswordChangedAt ∧ p.CreatedAt = q.CreatedAt :=
  ⟨_, _, rfl, rfl, rfl, rfl, rfl, rfl, rfl, rfl⟩

/-- C10: convertUser has no error path: every internal user has exactly one result, a
non-nil record whose PasswordChangedAt and CreatedAt are both present and are the wire
timestamps of the source fields, the zero time included. -/
theorem convertUser_total {ι : Type} (u : db.User ι) :
    ∃! p, convertUser u = some p ∧
      p.PasswordChangedAt.isSome = true ∧ p.CreatedAt.isSome = true ∧
      p.PasswordChangedAt = some (timestamppb.New u.PasswordChagedAt) ∧
      p.CreatedAt = some (timestamppb.New u.CreatedAt) := by
  refine ⟨_, ⟨rfl, rfl, rfl, rfl, rfl⟩, ?_⟩
  rintro q ⟨hq, -⟩
  exact (Option.some.inj hq).symm

/-- C10 at the zero user (empty strings, zero timestamps): the result is the record with
empty strings and both timestamps present, each the zero time's own seconds and nanos
(-62135596800 s, 0 ns), which reads back as the zero time. -/
theorem convertUser_total_zero :
    convertUser zeroUser =
        some
          { Username := ""
            FullName := ""
            Email := ""
            PasswordChangedAt := some ⟨⟨-62135596800, by decide⟩, ⟨0, by decide⟩⟩
            CreatedAt := some ⟨⟨-62135596800, by decide⟩, ⟨0, by decide⟩⟩ } ∧
      timestamppb.AsTime (some ⟨⟨-62135596800, by decide⟩, ⟨0, by decide⟩⟩) =
        time.Time.zero := by
  obtain ⟨p, ⟨h, -, -, h1, h2⟩, -⟩ := convertUser_total zeroUser
  refine ⟨?_, by decide⟩
  rw [h]
  rcases p with ⟨a, b, c, d, e⟩
  have h0 := Option.some.inj h
  simp only [pb.User.mk.injEq] at h0
  obtain ⟨ha, hb, hc, -, -⟩ := h0
  simp only at h1 h2
  subst ha hb hc h1 h2
  decide

end gapi

/-! ## NewServer -/

namespace gapi

/-- C3: for every factory, config, store and task distributor, NewServer returns either a
server and a nil error or no server and an error, never both and never neither, and it
returns the error exactly when the factory fails on config.TokenSymmetricKey. -/
theorem NewServer_all_or_nothing {κ σ μ δ : Type}
    (NewPasetoMaker : List golang.byte → μ × Option golang.error)
    (config : util.Config κ) (store : σ) (taskDistributor : δ) :
    (((NewServer NewPasetoMaker config store taskDistributor).1.isSome = true ∧
        (NewServer NewPasetoMaker config store taskDistributor).2 = none) ∨
      ((NewServer NewPasetoMaker config store taskDistributor).1 = none ∧
        (NewServer NewPasetoMaker config store taskDistributor).2.isSome = true)) ∧
    ¬ ((NewServer NewPasetoMaker config store taskDistributor).1.isSome = true ∧
        (NewServer NewPasetoMaker config store taskDistributor).2.isSome = true) ∧
    ¬ ((NewServer NewPasetoMaker config store taskDistributor).1 = none ∧
        (NewServer NewPasetoMaker config store taskDistributor).2 = none) ∧
    ((NewServer NewPasetoMaker config store taskDistributor).2.isSome =
      (NewPasetoMaker config.TokenSymmetricKey).2.isSome) := by
  unfold NewServer
  rcases h : NewPasetoMaker config.TokenSymmetricKey with ⟨m, _ | e⟩ <;> simp

/-- C5: when the factory fails with cause e, NewServer returns no server and an error whose
message is "cannot create token maker: " followed by the message of e and which unwraps to
exactly e. -/
theorem NewServer_wraps_cause {κ σ μ δ : Type}
    (NewPasetoMaker : List golang.byte → μ × Option golang.error)
    (config : util.Config κ) (store : σ) (taskDistributor : δ) (e : golang.error)
    (hfail : (NewPasetoMaker config.TokenSymmetricKey).2 = some e) :
    ∃ err, NewServer NewPasetoMaker config store taskDistributor = (none, some err) ∧
      err.Error = "cannot create token maker: " ++ e.Error ∧
      errors.Unwrap err = some e := by
  unfold NewServer
  rcases h : NewPasetoMaker config.TokenSymmetricKey with ⟨m, _ | e0⟩
  · rw [h] at hfail
    cases hfail
  · rw [h] at hfail
    cases hfail
    exact ⟨_, rfl, rfl, rfl⟩

/-- C5 at a factory that always fails with the error "invalid key size": the returned
message is "cannot create token maker: invalid key size" and unwrapping gives the cause. -/
theorem NewServer_wraps_cause_witness :
    ∃ err,
      NewServer (fun _ => ((), some (golang.error.errorString "invalid key size")))
          (⟨shortKey, ()⟩ : util.Config Unit) "store" "distributor" = (none, some err) ∧
        err.Error = "cannot create token maker: invalid key size" ∧
        errors.Unwrap err = some (golang.error.errorString "invalid key size") :=
  NewServer_wraps_cause (fun _ => ((), some (golang.error.errorString "invalid key size")))
    (⟨shortKey, ()⟩ : util.Config Unit) "store" "distributor"
    (golang.error.errorString "invalid key size") rfl

/-- C6: when the factory succeeds on config.TokenSymmetricKey with the maker m, NewServer
returns, with a nil error, the server whose config, store, tokenMaker and taskDistributor
fields are config, store, m and taskDistributor. -/
theorem NewServer_binds_fields {κ σ μ δ : Type}
    (NewPasetoMaker : List golang.byte → μ × Option golang.error)
    (config : util.Config κ) (store : σ) (taskDistributor : δ) (m : μ)
    (hok : NewPasetoMaker config.TokenSymmetricKey = (m, none)) :
    ∃ server, NewServer NewPasetoMaker config store taskDistributor = (some server, none) ∧
      server.config = config ∧ server.store = store ∧ server.tokenMaker = m ∧
      server.taskDistributor = taskDistributor := by
  unfold NewServer
  rw [hok]
  exact ⟨_, rfl, rfl, rfl, rfl, rfl⟩

/-- C6 at a store and a task distributor of the same type: the server built from the
32-byte key holds the store as store, the distributor as taskDistributor and the maker of
that key. -/
theorem NewServer_binds_fields_witness :
    ∃ server,
      NewServer token.NewPasetoMaker (⟨goodKey, 7⟩ : util.Config Nat) "store" "distributor" =
          (some server, none) ∧
        server.config = ⟨goodKey, 7⟩ ∧ server.store = "store" ∧
        server.tokenMaker = some ⟨goodKey⟩ ∧ server.taskDistributor = "distributor" :=
  NewServer_binds_fields token.NewPasetoMaker (⟨goodKey, 7⟩ : util.Config Nat) "store"
    "distributor" (some ⟨goodKey⟩) (by decide)

/-- C4: with the factory of package token, a config whose symmetric key is shorter or
longer than the required 32 bytes makes NewServer return no server and the construction
error wrapping InvalidKey, and a key of the required length makes it return a server and a
nil error. -/
theorem NewServer_key_length {κ σ δ : Type}
    (config : util.Config κ) (store : σ) (taskDistributor : δ) :
    (config.TokenSymmetricKey.length ≠ token.KeySize →
      NewServer token.NewPasetoMaker config store taskDistributor =
        (none, some (fmt.Errorf "cannot create token maker: " token.InvalidKey))) ∧
    (config.TokenSymmetricKey.length = token.KeySize →
      ∃ server,
        NewServer token.NewPasetoMaker config store taskDistributor = (some server, none)) := by
  constructor
  · intro h
    simp [NewServer, token.NewPasetoMaker, h]
  · intro h
    simp [NewServer, token.NewPasetoMaker, h]

/-- C4 at the spec's scenario: a key of 8 bytes, where 32 are required, gives the
construction error and no server; a key of 32 bytes gives a server. -/
theorem NewServer_key_length_witness :
    shortKey.length = 8 ∧ token.KeySize = 32 ∧
      NewServer token.NewPasetoMaker (⟨shortKey, ()⟩ : util.Config Unit) "store" "distributor" =
        (none, some (fmt.Errorf "cannot create token maker: " token.InvalidKey)) ∧
      ∃ server,
        NewServer token.NewPasetoMaker (⟨goodKey, ()⟩ : util.Config Unit) "store"
          "distributor" = (some server, none) :=
  ⟨by decide, by decide,
    (NewServer_key_length (⟨shortKey, ()⟩ : util.Config Unit) "store" "distributor").1
      (by decide),
    (NewServer_key_length (⟨goodKey, ()⟩ : util.Config Unit) "store" "distributor").2
      (by decide)⟩

/-- C8: two invocations of NewServer whose configs hold the same symmetric key (in
particular two invocations on identical inputs) have the same outcome. Either the key does
not have the required length and both fail with the same error, the construction error
wrapping InvalidKey; or both succeed, each server holds its own inputs, so that identical
inputs give equal servers, the two token makers are equal, the maker of that key, and for
every token component that verifies what it issues a token issued by either maker verifies
against the other. -/
theorem NewServer_deterministic {κ σ δ ι τ : Type}
    (issue : Option token.PasetoMaker → ι → τ)
    (verify : Option token.PasetoMaker → τ → Bool)
    (config1 config2 : util.Config κ) (store1 store2 : σ)
    (taskDistributor1 taskDistributor2 : δ)
    (hscheme : token.IssuesAndVerifies issue verify)
    (hkey : config1.TokenSymmetricKey = config2.TokenSymmetricKey) :
    (config1.TokenSymmetricKey.length ≠ token.KeySize ∧
        NewServer token.NewPasetoMaker config1 store1 taskDistributor1 =
          (none, some (fmt.Errorf "cannot create token maker: " token.InvalidKey)) ∧
        NewServer token.NewPasetoMaker config2 store2 taskDistributor2 =
          (none, some (fmt.Errorf "cannot create token maker: " token.InvalidKey))) ∨
      (config1.TokenSymmetricKey.length = token.KeySize ∧
        ∃ server1 server2,
          NewServer token.NewPasetoMaker config1 store1 taskDistributor1 =
              (some server1, none) ∧
            NewServer token.NewPasetoMaker config2 store2 taskDistributor2 =
              (some server2, none) ∧
            server1.config = config1 ∧ server2.config = config2 ∧
            server1.store = store1 ∧ server2.store = store2 ∧
            server1.taskDistributor = taskDistributor1 ∧
            server2.taskDistributor = taskDistributor2 ∧
            server1.tokenMaker = some { symmetricKey := config1.TokenSymmetricKey } ∧
            server2.tokenMaker = server1.tokenMaker ∧
            (config1 = config2 → store1 = store2 → taskDistributor1 = taskDistributor2 →
              server1 = server2) ∧
            ∀ x : ι,
              verify server2.tokenMaker (issue server1.tokenMaker x) = true ∧
                verify server1.tokenMaker (issue server2.tokenMaker x) = true) := by
  by_cases hl : config1.TokenSymmetricKey.length = token.KeySize
  · right
    have hl2 : config2.TokenSymmetricKey.length = token.KeySize := hkey ▸ hl
    refine ⟨hl,
      { UnimplementedBasicBankServer := {}
        config := config1
        store := store1
        tokenMaker := some { symmetricKey := config1.TokenSymmetricKey }
        taskDistributor := taskDistributor1 },
      { UnimplementedBasicBankServer := {}
        config := config2
        store := store2
        tokenMaker := some { symmetricKey := config2.TokenSymmetricKey }
        taskDistributor := taskDistributor2 }, ?_, ?_, rfl, rfl, rfl, rfl, rfl, rfl, rfl, ?_, ?_, ?_⟩
    · simp [NewServer, token.NewPasetoMaker, hl]
    · simp [NewServer, token.NewPasetoMaker, hl2]
    · show some ({ symmetricKey := config2.TokenSymmetricKey } : token.PasetoMaker) =
        some { symmetricKey := config1.TokenSymmetricKey }
      rw [hkey]
    · intro hc hs hd
      subst hc hs hd
      rfl
    · intro x
      show verify (some { symmetricKey := config2.TokenSymmetricKey })
            (issue (some { symmetricKey := config1.TokenSymmetricKey }) x) = true ∧
          verify (some { symmetricKey := config1.TokenSymmetricKey })
            (issue (some { symmetricKey := config2.TokenSymmetricKey }) x) = true
      rw [← hkey]
      exact ⟨hscheme _ x hl, hscheme _ x hl⟩
  · left
    have hl2 : ¬ config2.TokenSymmetricKey.length = token.KeySize := hkey ▸ hl
    refine ⟨hl, ?_, ?_⟩
    · simp [NewServer, token.NewPasetoMaker, hl]
    · simp [NewServer, token.NewPasetoMaker, hl2]

/-- C8 at two invocations on identical inputs with the 32-byte key and the tagging token
component, which verifies what it issues and rejects a token issued under another key: both
invocations succeed, the two servers are equal, and the token issued for alice by the maker
of the first verifies against the maker of the second. -/
theorem NewServer_deterministic_witness :
    token.IssuesAndVerifies tagIssue tagVerify ∧
      tagVerify (some ⟨otherKey⟩) (tagIssue (some ⟨goodKey⟩) "alice") = false ∧
      ∃ server1 server2,
        NewServer token.NewPasetoMaker (⟨goodKey, ()⟩ : util.Config Unit) "store"
            "distributor" = (some server1, none) ∧
          NewServer token.NewPasetoMaker (⟨goodKey, ()⟩ : util.Config Unit) "store"
            "distributor" = (some server2, none) ∧
          server1 = server2 ∧
          tagVerify server2.tokenMaker (tagIssue server1.tokenMaker "alice") = true := by
  have hscheme : token.IssuesAndVerifies tagIssue tagVerify := by
    intro key x _
    simp [tagIssue, tagVerify]
  refine ⟨hscheme, by decide, ?_⟩
  rcases NewServer_deterministic tagIssue tagVerify (⟨goodKey, ()⟩ : util.Config Unit)
      ⟨goodKey, ()⟩ "store" "store" "distributor" "distributor" hscheme rfl with h | h
  · exact absurd h.1 (by decide)
  · obtain ⟨-, server1, server2, h1, h2, -, -, -, -, -, -, -, -, heq, hv⟩ := h
    exact ⟨server1, server2, h1, h2, heq rfl rfl rfl, (hv "alice").1⟩

end gapi
